import Mathlib

/-!
Verification development for the travel-vlogs backend service
(`src/server.py`): a FastAPI application over a MongoDB document store
with three collections (destinations, trips, bookings), per-collection
create/list handlers, a get-by-id handler for trips, and a destructive
seed endpoint.

The embedding models MongoDB documents as association lists of fields
(`Document`), the database as three collections of stored documents plus
a fresh-object-id counter (`DB`), and each route handler as a pure
function of the state (handlers that consume randomness or the clock
take the generated 128-bit uuid value and the current UTC time as
explicit arguments).  Timestamps are modelled by a calendar record
(`DateTime`, always UTC-aware, as produced by `datetime.now(timezone.utc)`),
together with executable `isoformat` / `fromisoformat` functions
mirroring the Python `datetime` serialization the handlers rely on.
-/

namespace TravelApi

/-- A UTC-aware calendar timestamp, the model of Python
`datetime.now(timezone.utc)` values (the service only ever constructs
and parses UTC-aware datetimes, so the timezone is left implicit). -/
structure DateTime where
  year : Nat
  month : Nat
  day : Nat
  hour : Nat
  minute : Nat
  second : Nat
  microsecond : Nat
deriving DecidableEq, Repr

/-- A BSON-ish field value as this service stores and reads them:
strings, ints, floats (here exact rationals, since the service never
computes with them), lists, and structured datetimes.  Every list this
service validates, stores or seeds is a list of strings (highlights,
itinerary, inclusions, exclusions), so list values are specialized to
string lists. -/
inductive Value where
  | str (s : String)
  | int (n : Int)
  | num (q : Rat)
  | list (l : List String)
  | dt (t : DateTime)
deriving DecidableEq, Repr

/-- A MongoDB document: an ordered association list of named fields. -/
abbrev Document := List (String × Value)

/-- The database state: the three collections of stored documents and a
counter supplying fresh store-internal object ids on insertion. -/
structure DB where
  destinations : List Document
  trips : List Document
  bookings : List Document
  nextOid : Nat

/-- Whether a document matches an equality query (a conjunction of
field-equals-value conditions), as `collection.find(query)` filters. -/
def matchesQuery (q : List (String × Value)) (d : Document) : Bool :=
  q.all (fun kv => d.lookup kv.1 == some kv.2)

/-- The `{"_id": 0}` projection: drop the store-internal id field. -/
def stripId (d : Document) : Document :=
  d.filter (fun kv => kv.1 != "_id")

/-- `collection.find(query, {"_id": 0}).to_list(limit)`: the matching
documents in stored order, projected, truncated to `limit`. -/
def findList (coll : List Document) (q : List (String × Value)) (limit : Nat) :
    List Document :=
  ((coll.filter (matchesQuery q)).map stripId).take limit

/-- `collection.find_one(query, {"_id": 0})`: the first matching
document, projected. -/
def findOne (coll : List Document) (q : List (String × Value)) :
    Option Document :=
  ((coll.filter (matchesQuery q)).head?).map stripId

/-- `collection.insert_one(doc)`: the driver prepends a fresh
store-internal `_id` and appends the document to the collection. -/
def insertOne (coll : List Document) (oid : Nat) (d : Document) :
    List Document :=
  coll ++ [( "_id", Value.int oid) :: d]

/-- `collection.insert_many(docs)`: insert in order, each document
receiving the next fresh store-internal id. -/
def withOids : List Document → Nat → List Document
  | [], _ => []
  | d :: ds, oid => (( "_id", Value.int oid) :: d) :: withOids ds (oid + 1)

/-- How a handler fails: `HTTPException(404)`, schema-validation
rejection (FastAPI 422), or an uncaught exception (HTTP 500). -/
inductive ApiErr where
  | notFound
  | validation
  | internal
deriving DecidableEq, Repr

end TravelApi

namespace TravelApi

/-! Field extraction with pydantic's lax coercions, as used when a JSON
payload is validated against a schema: `str` fields require a string,
`float` fields accept a float or an int, `int` fields require an int,
`List[str]` fields require a list of strings. -/

def getStr (d : Document) (k : String) : Option String :=
  match d.lookup k with
  | some (Value.str s) => some s
  | _ => none

def getInt (d : Document) (k : String) : Option Int :=
  match d.lookup k with
  | some (Value.int n) => some n
  | _ => none

def getFloat (d : Document) (k : String) : Option Rat :=
  match d.lookup k with
  | some (Value.num q) => some q
  | some (Value.int n) => some (n : Rat)
  | _ => none

def getStrList (d : Document) (k : String) : Option (List String) :=
  match d.lookup k with
  | some (Value.list l) => some l
  | _ => none

/-! The model of `str(uuid.uuid4())` (the `default_factory` of every
`id` field): the 128-bit value rendered as 32 lowercase hex digits in
the 8-4-4-4-12 hyphenated layout.  The handlers take the drawn 128-bit
value as an explicit argument. -/

/-- The base-`b` digits of `n`, most significant first, zero-padded to
exactly `w` digits. -/
def padBE (b : Nat) : Nat → Nat → List Nat
  | 0, _ => []
  | w + 1, n => (n / b ^ w % b) :: padBE b w n

/-- A single lowercase hexadecimal digit character. -/
def hexDigitChar (n : Nat) : Char :=
  if n < 10 then Char.ofNat (48 + n) else Char.ofNat (87 + n)

/-- The 32 hex digit characters of a 128-bit value. -/
def uuidHexChars (n : Nat) : List Char :=
  (padBE 16 32 n).map hexDigitChar

/-- `str(uuid.uuid4())` for the drawn 128-bit value `n`:
8-4-4-4-12 lowercase hex groups joined by hyphens. -/
def uuid4String (n : Nat) : String :=
  String.mk ((uuidHexChars n).take 8 ++ '-' ::
    (((uuidHexChars n).drop 8).take 4 ++ '-' ::
      ((((uuidHexChars n).drop 8).drop 4).take 4 ++ '-' ::
        (((((uuidHexChars n).drop 8).drop 4).drop 4).take 4 ++ '-' ::
          ((((uuidHexChars n).drop 8).drop 4).drop 4).drop 4))))

/-- Numeric value of a lowercase hex digit character. -/
def hexVal (c : Char) : Nat :=
  if c.toNat ≤ 57 then c.toNat - 48 else c.toNat - 87

/-- One step of reading a hyphenated hex string back to a number:
hyphens are skipped, digits accumulate base 16. -/
def hexStep (a : Nat) (c : Char) : Nat :=
  if c = '-' then a else a * 16 + hexVal c

/-- Read a hyphenated hex string back to the number it renders. -/
def collectHex (l : List Char) : Nat :=
  l.foldl hexStep 0

/-! ISO-8601 serialization of UTC-aware datetimes, the model of Python
`datetime.isoformat()` and `datetime.fromisoformat()` as this service
uses them (`create_booking` stores `booking_date.isoformat()`;
`get_bookings` parses string-typed stored values back).  `isoformat`
renders `YYYY-MM-DDTHH:MM:SS[.ffffff]+00:00` — Python omits the
fractional part exactly when `microsecond == 0`.  `fromisoformat` is
the positional parser restricted to the UTC offset this service ever
writes, and rejects out-of-range calendar components as the `datetime`
constructor does. -/

/-- The character for the lowest decimal digit of `n`. -/
def digitChar10 (n : Nat) : Char :=
  Char.ofNat (48 + n % 10)

/-- Two-digit zero-padded decimal rendering. -/
def pad2 (n : Nat) : List Char :=
  [digitChar10 (n / 10), digitChar10 n]

/-- Four-digit zero-padded decimal rendering. -/
def pad4 (n : Nat) : List Char :=
  [digitChar10 (n / 1000), digitChar10 (n / 100), digitChar10 (n / 10),
    digitChar10 n]

/-- Six-digit zero-padded decimal rendering. -/
def pad6 (n : Nat) : List Char :=
  [digitChar10 (n / 100000), digitChar10 (n / 10000), digitChar10 (n / 1000),
    digitChar10 (n / 100), digitChar10 (n / 10), digitChar10 n]

/-- `datetime.isoformat()` of a UTC-aware datetime, as a char list. -/
def isoformatL (t : DateTime) : List Char :=
  pad4 t.year ++ '-' :: (pad2 t.month ++ '-' :: (pad2 t.day ++ 'T' ::
    (pad2 t.hour ++ ':' :: (pad2 t.minute ++ ':' :: (pad2 t.second ++
      ((if t.microsecond = 0 then [] else '.' :: pad6 t.microsecond) ++
        [ '+', '0', '0', ':', '0', '0' ]))))))

/-- `datetime.isoformat()` of a UTC-aware datetime. -/
def isoformat (t : DateTime) : String :=
  String.mk (isoformatL t)

/-- Numeric value of a decimal digit character, failing otherwise. -/
def charToDigit (c : Char) : Option Nat :=
  if 48 ≤ c.toNat ∧ c.toNat ≤ 57 then some (c.toNat - 48) else none

/-- Parse two decimal digit characters. -/
def parse2 (a b : Char) : Option Nat :=
  match charToDigit a, charToDigit b with
  | some x, some y => some (10 * x + y)
  | _, _ => none

/-- Parse four decimal digit characters. -/
def parse4 (a b c d : Char) : Option Nat :=
  match charToDigit a, charToDigit b, charToDigit c, charToDigit d with
  | some x, some y, some z, some w => some (1000 * x + 100 * y + 10 * z + w)
  | _, _, _, _ => none

/-- Parse six decimal digit characters. -/
def parse6 (a b c d e f : Char) : Option Nat :=
  match charToDigit a, charToDigit b, charToDigit c, charToDigit d,
      charToDigit e, charToDigit f with
  | some u, some v, some w, some x, some y, some z =>
    some (100000 * u + 10000 * v + 1000 * w + 100 * x + 10 * y + z)
  | _, _, _, _, _, _ => none

/-- Number of days in a month of a given year (Gregorian). -/
def daysInMonth (y m : Nat) : Nat :=
  if m = 2 then
    (if y % 4 = 0 && (y % 100 != 0 || y % 400 = 0) then 29 else 28)
  else if m = 4 || m = 6 || m = 9 || m = 11 then 30
  else 31

/-- The range checks the `datetime` constructor performs. -/
def validParts (y mo da ho mi se us : Nat) : Bool :=
  decide (1 ≤ y) && decide (y ≤ 9999) && decide (1 ≤ mo) &&
    decide (mo ≤ 12) && decide (1 ≤ da) && decide (da ≤ daysInMonth y mo) &&
    decide (ho ≤ 23) && decide (mi ≤ 59) && decide (se ≤ 59) &&
    decide (us ≤ 999999)

/-- A datetime whose components are in the ranges Python's `datetime`
admits; every value `datetime.now(timezone.utc)` produces is valid. -/
def DateTime.Valid (t : DateTime) : Prop :=
  validParts t.year t.month t.day t.hour t.minute t.second t.microsecond = true

instance (t : DateTime) : Decidable t.Valid := by
  unfold DateTime.Valid; infer_instance

/-- Parse the tail after the seconds field: either the UTC offset
directly (microseconds zero) or a six-digit fraction then the offset. -/
def parseTail (rest : List Char) : Option Nat :=
  match rest with
  | [ '+', '0', '0', ':', '0', '0' ] => some 0
  | '.' :: u1 :: u2 :: u3 :: u4 :: u5 :: u6 ::
      [ '+', '0', '0', ':', '0', '0' ] => parse6 u1 u2 u3 u4 u5 u6
  | _ => none

/-- `datetime.fromisoformat` on a char list (UTC-offset inputs, the
only form this service writes). -/
def fromisoformatL (cs : List Char) : Option DateTime :=
  match cs with
  | y1 :: y2 :: y3 :: y4 :: '-' :: m1 :: m2 :: '-' :: d1 :: d2 :: 'T' ::
      h1 :: h2 :: ':' :: n1 :: n2 :: ':' :: s1 :: s2 :: rest =>
    match parse4 y1 y2 y3 y4, parse2 m1 m2, parse2 d1 d2, parse2 h1 h2,
        parse2 n1 n2, parse2 s1 s2, parseTail rest with
    | some y, some mo, some da, some ho, some mi, some se, some us =>
      if validParts y mo da ho mi se us then
        some ⟨y, mo, da, ho, mi, se, us⟩
      else none
    | _, _, _, _, _, _, _ => none
  | _ => none

/-- `datetime.fromisoformat` on a string. -/
def fromisoformat (s : String) : Option DateTime :=
  fromisoformatL s.data

end TravelApi

namespace TravelApi

/-! The pydantic schemas of `server.py`.  Each creation schema is a
record of the declared fields together with a validator that extracts
exactly those fields from the JSON payload document — pydantic's
default `extra` policy (and the explicit `extra="ignore"` on the full
models) silently drops unknown keys.  Each full model carries the
server-generated fields and a `model_dump` producing the stored
document in field-declaration order. -/

structure DestinationCreate where
  name : String
  region : String
  description : String
  image_url : String
  highlights : List String
  best_season : String
deriving DecidableEq, Repr

def DestinationCreate.validate (d : Document) : Option DestinationCreate :=
  match getStr d "name", getStr d "region", getStr d "description",
      getStr d "image_url", getStrList d "highlights",
      getStr d "best_season" with
  | some na, some re, some de, some im, some hi, some be =>
    some ⟨na, re, de, im, hi, be⟩
  | _, _, _, _, _, _ => none

structure Destination where
  id : String
  name : String
  region : String
  description : String
  image_url : String
  highlights : List String
  best_season : String
deriving DecidableEq, Repr

def Destination.model_dump (x : Destination) : Document :=
  [( "id", Value.str x.id), ( "name", Value.str x.name),
   ( "region", Value.str x.region),
   ( "description", Value.str x.description),
   ( "image_url", Value.str x.image_url),
   ( "highlights", Value.list x.highlights),
   ( "best_season", Value.str x.best_season)]

structure TripPackageCreate where
  destination_id : String
  destination_name : String
  title : String
  duration : String
  price_veg : Rat
  price_non_veg : Rat
  pickup_time : String
  itinerary : List String
  inclusions : List String
  exclusions : List String
  image_url : String
deriving DecidableEq, Repr

def TripPackageCreate.validate (d : Document) : Option TripPackageCreate :=
  match getStr d "destination_id", getStr d "destination_name",
      getStr d "title", getStr d "duration", getFloat d "price_veg",
      getFloat d "price_non_veg", getStr d "pickup_time",
      getStrList d "itinerary", getStrList d "inclusions",
      getStrList d "exclusions", getStr d "image_url" with
  | some di, some dn, some ti, some du, some pv, some pn, some pi2,
      some it, some ic, some ex, some im =>
    some ⟨di, dn, ti, du, pv, pn, pi2, it, ic, ex, im⟩
  | _, _, _, _, _, _, _, _, _, _, _ => none

structure TripPackage where
  id : String
  destination_id : String
  destination_name : String
  title : String
  duration : String
  price_veg : Rat
  price_non_veg : Rat
  pickup_time : String
  itinerary : List String
  inclusions : List String
  exclusions : List String
  image_url : String
deriving DecidableEq, Repr

def TripPackage.model_dump (x : TripPackage) : Document :=
  [( "id", Value.str x.id), ( "destination_id", Value.str x.destination_id),
   ( "destination_name", Value.str x.destination_name),
   ( "title", Value.str x.title), ( "duration", Value.str x.duration),
   ( "price_veg", Value.num x.price_veg),
   ( "price_non_veg", Value.num x.price_non_veg),
   ( "pickup_time", Value.str x.pickup_time),
   ( "itinerary", Value.list x.itinerary),
   ( "inclusions", Value.list x.inclusions),
   ( "exclusions", Value.list x.exclusions),
   ( "image_url", Value.str x.image_url)]

structure BookingCreate where
  trip_id : String
  trip_title : String
  customer_name : String
  customer_email : String
  customer_phone : String
  travel_date : String
  guests : Int
  meal_preference : String
  total_amount : Rat
deriving DecidableEq, Repr

def BookingCreate.validate (d : Document) : Option BookingCreate :=
  match getStr d "trip_id", getStr d "trip_title",
      getStr d "customer_name", getStr d "customer_email",
      getStr d "customer_phone", getStr d "travel_date", getInt d "guests",
      getStr d "meal_preference", getFloat d "total_amount" with
  | some ti, some tt, some cn, some ce, some cp, some td, some gu,
      some mp, some ta =>
    some ⟨ti, tt, cn, ce, cp, td, gu, mp, ta⟩
  | _, _, _, _, _, _, _, _, _ => none

structure Booking where
  id : String
  trip_id : String
  trip_title : String
  customer_name : String
  customer_email : String
  customer_phone : String
  travel_date : String
  guests : Int
  meal_preference : String
  total_amount : Rat
  booking_date : DateTime
  status : String
deriving DecidableEq, Repr

def Booking.model_dump (x : Booking) : Document :=
  [( "id", Value.str x.id), ( "trip_id", Value.str x.trip_id),
   ( "trip_title", Value.str x.trip_title),
   ( "customer_name", Value.str x.customer_name),
   ( "customer_email", Value.str x.customer_email),
   ( "customer_phone", Value.str x.customer_phone),
   ( "travel_date", Value.str x.travel_date),
   ( "guests", Value.int x.guests),
   ( "meal_preference", Value.str x.meal_preference),
   ( "total_amount", Value.num x.total_amount),
   ( "booking_date", Value.dt x.booking_date),
   ( "status", Value.str x.status)]

/-- `doc[key] = value` on an existing key: replace that field's value
in place (other fields and the order untouched). -/
def setKey (d : Document) (k : String) (v : Value) : Document :=
  d.map (fun kv => if kv.1 = k then (k, v) else kv)

/-- The field names of a dumped `TripPackage` record, in declaration
order. -/
def tripPackageKeys : List String :=
  ["id", "destination_id", "destination_name", "title", "duration",
   "price_veg", "price_non_veg", "pickup_time", "itinerary", "inclusions",
   "exclusions", "image_url"]

/-! The route handlers of `server.py`.  Each handler is a pure function
of the database state; a handler that draws a uuid takes the drawn
128-bit value `rnd`, and `create_booking` takes the current UTC time
`now`.  Schema validation failure (FastAPI's 422) is
`ApiErr.validation`; `HTTPException(404)` is `ApiErr.notFound`; an
uncaught exception (here only `fromisoformat` on a malformed stored
string) is `ApiErr.internal`. -/

/-- `GET /api/destinations`. -/
def get_destinations (s : DB) : Except ApiErr (List Document) :=
  Except.ok (findList s.destinations [] 1000)

/-- `POST /api/destinations`. -/
def create_destination (s : DB) (rnd : Nat) (payload : Document) :
    Except ApiErr Destination × DB :=
  match DestinationCreate.validate payload with
  | none => (Except.error ApiErr.validation, s)
  | some inp =>
    let obj : Destination :=
      { id := uuid4String rnd, name := inp.name, region := inp.region,
        description := inp.description, image_url := inp.image_url,
        highlights := inp.highlights, best_season := inp.best_season }
    (Except.ok obj,
      { s with destinations := insertOne s.destinations s.nextOid obj.model_dump,
               nextOid := s.nextOid + 1 })

/-- The query built by `get_trips`:
`{"destination_id": destination_id} if destination_id else {}` —
`if destination_id` is Python truthiness, so both a missing parameter
and an empty-string parameter leave the query empty. -/
def tripsQuery (destination_id : Option String) : List (String × Value) :=
  match destination_id with
  | some x => if x = "" then [] else [( "destination_id", Value.str x)]
  | none => []

/-- `GET /api/trips` with the optional `destination_id` query
parameter. -/
def get_trips (s : DB) (destination_id : Option String) :
    Except ApiErr (List Document) :=
  Except.ok (findList s.trips (tripsQuery destination_id) 1000)

/-- `GET /api/trips/{trip_id}`; `if not trip` is Python falsiness, so
both a missing document and an empty projected document raise 404. -/
def get_trip (s : DB) (trip_id : String) : Except ApiErr Document :=
  match findOne s.trips [( "id", Value.str trip_id)] with
  | none => Except.error ApiErr.notFound
  | some t => if t.isEmpty then Except.error ApiErr.notFound else Except.ok t

/-- `POST /api/trips`. -/
def create_trip (s : DB) (rnd : Nat) (payload : Document) :
    Except ApiErr TripPackage × DB :=
  match TripPackageCreate.validate payload with
  | none => (Except.error ApiErr.validation, s)
  | some inp =>
    let obj : TripPackage :=
      { id := uuid4String rnd, destination_id := inp.destination_id,
        destination_name := inp.destination_name, title := inp.title,
        duration := inp.duration, price_veg := inp.price_veg,
        price_non_veg := inp.price_non_veg, pickup_time := inp.pickup_time,
        itinerary := inp.itinerary, inclusions := inp.inclusions,
        exclusions := inp.exclusions, image_url := inp.image_url }
    (Except.ok obj,
      { s with trips := insertOne s.trips s.nextOid obj.model_dump,
               nextOid := s.nextOid + 1 })

/-- The per-document step of `get_bookings`: a string-typed
`booking_date` is parsed as ISO-8601 (a malformed one raises), any
other shape passes through unchanged. -/
def readBooking (d : Document) : Option Document :=
  match d.lookup "booking_date" with
  | some (Value.str s) =>
    match fromisoformat s with
    | some t => some (setKey d "booking_date" (Value.dt t))
    | none => none
  | _ => some d

/-- The `for booking in bookings` loop of `get_bookings`: stops at the
first malformed stored timestamp (the exception propagates). -/
def fixBookings : List Document → Option (List Document)
  | [] => some []
  | d :: ds =>
    match readBooking d with
    | some d2 =>
      match fixBookings ds with
      | some rest => some (d2 :: rest)
      | none => none
    | none => none

/-- `GET /api/bookings`. -/
def get_bookings (s : DB) : Except ApiErr (List Document) :=
  match fixBookings (findList s.bookings [] 1000) with
  | some l => Except.ok l
  | none => Except.error ApiErr.internal

/-- `POST /api/bookings`: the booking record is constructed with the
server-generated id, the server clock reading and the fixed initial
status, then stored with `booking_date` serialized to ISO-8601. -/
def create_booking (s : DB) (rnd : Nat) (now : DateTime)
    (payload : Document) : Except ApiErr Booking × DB :=
  match BookingCreate.validate payload with
  | none => (Except.error ApiErr.validation, s)
  | some inp =>
    let obj : Booking :=
      { id := uuid4String rnd, trip_id := inp.trip_id,
        trip_title := inp.trip_title, customer_name := inp.customer_name,
        customer_email := inp.customer_email,
        customer_phone := inp.customer_phone,
        travel_date := inp.travel_date, guests := inp.guests,
        meal_preference := inp.meal_preference,
        total_amount := inp.total_amount, booking_date := now,
        status := "confirmed" }
    let doc := setKey obj.model_dump "booking_date"
      (Value.str (isoformat now))
    (Except.ok obj,
      { s with bookings := insertOne s.bookings s.nextOid doc,
               nextOid := s.nextOid + 1 })

/-! The fixed dataset of `POST /api/seed`, transcribed from
`seed_data` in `server.py`. -/

def destinations_data : List Document :=
  [[( "id", Value.str "dest-1"), ( "name", Value.str "Gangtok"),
    ( "region", Value.str "Sikkim"),
    ( "description", Value.str "The capital of Sikkim, nestled in the Himalayas with stunning mountain views and rich Buddhist culture."),
    ( "image_url", Value.str "https://images.unsplash.com/photo-1761820228515-b79043c31856?crop=entropy&cs=srgb&fm=jpg&ixid=M3w3NDQ2NDN8MHwxfHNlYXJjaHwxfHxIaW1hbGF5YW4lMjBtb3VudGFpbiUyMHZpc3RhfGVufDB8fHx8MTc2MjEwNDgwNXww&ixlib=rb-4.1.0&q=85"),
    ( "highlights", Value.list ["Tsomgo Lake", "Nathula Pass", "Rumtek Monastery", "MG Marg"]),
    ( "best_season", Value.str "March to June, September to December")],
   [( "id", Value.str "dest-2"), ( "name", Value.str "Darjeeling"),
    ( "region", Value.str "West Bengal"),
    ( "description", Value.str "Famous for its tea gardens, toy train, and breathtaking views of Kanchenjunga."),
    ( "image_url", Value.str "https://images.unsplash.com/photo-1742286087572-937f08b947b8?crop=entropy&cs=srgb&fm=jpg&ixid=M3w3NDQ2Mzl8MHwxfHNlYXJjaHwxfHx0ZWElMjBnYXJkZW4lMjBsYW5kc2NhcGV8ZW58MHx8fHwxNzYyMTA0ODA1fDA&ixlib=rb-4.1.0&q=85"),
    ( "highlights", Value.list ["Tiger Hill", "Darjeeling Himalayan Railway", "Tea Gardens", "Batasia Loop"]),
    ( "best_season", Value.str "April to June, September to November")],
   [( "id", Value.str "dest-3"), ( "name", Value.str "Tawang"),
    ( "region", Value.str "Arunachal Pradesh"),
    ( "description", Value.str "Home to India\x27s largest monastery and spectacular mountain landscapes."),
    ( "image_url", Value.str "https://images.unsplash.com/photo-1633538028057-838fd4e027a4?crop=entropy&cs=srgb&fm=jpg&ixid=M3w3NTY2NjZ8MHwxfHNlYXJjaHwxfHxCdWRkaGlzdCUyMG1vbmFzdGVyeXxlbnwwfHx8fDE3NjIxMDQ4MDZ8MA&ixlib=rb-4.1.0&q=85"),
    ( "highlights", Value.list ["Tawang Monastery", "Sela Pass", "Madhuri Lake", "Bumla Pass"]),
    ( "best_season", Value.str "March to October")],
   [( "id", Value.str "dest-4"), ( "name", Value.str "Shillong"),
    ( "region", Value.str "Meghalaya"),
    ( "description", Value.str "The \x27Scotland of the East\x27 with rolling hills, waterfalls, and pleasant weather."),
    ( "image_url", Value.str "https://images.unsplash.com/photo-1752063497357-4a9e0b765771?crop=entropy&cs=srgb&fm=jpg&ixid=M3w3NDQ2NDN8MHwxfHNlYXJjaHwyfHxIaW1hbGF5YW4lMjBtb3VudGFpbiUyMHZpc3RhfGVufDB8fHx8MTc2MjEwNDgwNXww&ixlib=rb-4.1.0&q=85"),
    ( "highlights", Value.list ["Elephant Falls", "Shillong Peak", "Ward\x27s Lake", "Don Bosco Museum"]),
    ( "best_season", Value.str "October to May")]]

def trips_data : List Document :=
  [[( "id", Value.str "trip-1"), ( "destination_id", Value.str "dest-1"),
    ( "destination_name", Value.str "Gangtok"),
    ( "title", Value.str "Gangtok Paradise - 5 Days"),
    ( "duration", Value.str "5 Days / 4 Nights"),
    ( "price_veg", Value.int 18500), ( "price_non_veg", Value.int 21000),
    ( "pickup_time", Value.str "8:00 AM from Bagdogra Airport/NJP Station"),
    ( "itinerary", Value.list
      ["Day 1: Arrival in Gangtok, check-in, MG Marg evening walk",
       "Day 2: Tsomgo Lake & Baba Mandir excursion",
       "Day 3: Nathula Pass visit (subject to permit)",
       "Day 4: Rumtek Monastery, Hanuman Tok, Tashi View Point",
       "Day 5: Departure to Bagdogra/NJP"]),
    ( "inclusions", Value.list
      ["Accommodation", "Daily breakfast, lunch & dinner", "All transfers",
       "Sightseeing as per itinerary", "Permit fees"]),
    ( "exclusions", Value.list
      ["Personal expenses", "Travel insurance", "Any meals not mentioned"]),
    ( "image_url", Value.str "https://images.unsplash.com/photo-1761820228515-b79043c31856?crop=entropy&cs=srgb&fm=jpg&ixid=M3w3NDQ2NDN8MHwxfHNlYXJjaHwxfHxIaW1hbGF5YW4lMjBtb3VudGFpbiUyMHZpc3RhfGVufDB8fHx8MTc2MjEwNDgwNXww&ixlib=rb-4.1.0&q=85")],
   [( "id", Value.str "trip-2"), ( "destination_id", Value.str "dest-2"),
    ( "destination_name", Value.str "Darjeeling"),
    ( "title", Value.str "Darjeeling Delight - 4 Days"),
    ( "duration", Value.str "4 Days / 3 Nights"),
    ( "price_veg", Value.int 14500), ( "price_non_veg", Value.int 16500),
    ( "pickup_time", Value.str "7:00 AM from Bagdogra Airport/NJP Station"),
    ( "itinerary", Value.list
      ["Day 1: Arrival in Darjeeling, check-in, Mall Road exploration",
       "Day 2: Tiger Hill sunrise, Ghoom Monastery, Batasia Loop, toy train ride",
       "Day 3: Tea garden visit, Happy Valley, Himalayan Mountaineering Institute",
       "Day 4: Departure to Bagdogra/NJP"]),
    ( "inclusions", Value.list
      ["Accommodation", "Daily breakfast, lunch & dinner", "All transfers",
       "Sightseeing", "Toy train tickets"]),
    ( "exclusions", Value.list
      ["Personal expenses", "Camera fees", "Tips"]),
    ( "image_url", Value.str "https://images.unsplash.com/photo-1742286087572-937f08b947b8?crop=entropy&cs=srgb&fm=jpg&ixid=M3w3NDQ2Mzl8MHwxfHNlYXJjaHwxfHx0ZWElMjBnYXJkZW4lMjBsYW5kc2NhcGV8ZW58MHx8fHwxNzYyMTA0ODA1fDA&ixlib=rb-4.1.0&q=85")],
   [( "id", Value.str "trip-3"), ( "destination_id", Value.str "dest-3"),
    ( "destination_name", Value.str "Tawang"),
    ( "title", Value.str "Tawang Tranquility - 6 Days"),
    ( "duration", Value.str "6 Days / 5 Nights"),
    ( "price_veg", Value.int 25500), ( "price_non_veg", Value.int 28500),
    ( "pickup_time", Value.str "6:00 AM from Guwahati Airport/Station"),
    ( "itinerary", Value.list
      ["Day 1: Guwahati to Bomdila (overnight journey)",
       "Day 2: Bomdila to Tawang via Sela Pass",
       "Day 3: Tawang Monastery, War Memorial, local market",
       "Day 4: Bumla Pass & Madhuri Lake excursion",
       "Day 5: Tawang to Bomdila",
       "Day 6: Bomdila to Guwahati, departure"]),
    ( "inclusions", Value.list
      ["Accommodation", "All meals", "Permits & entry fees", "Transfers",
       "Guide services"]),
    ( "exclusions", Value.list
      ["Personal expenses", "Travel insurance", "Medical expenses", "Laundry"]),
    ( "image_url", Value.str "https://images.unsplash.com/photo-1633538028057-838fd4e027a4?crop=entropy&cs=srgb&fm=jpg&ixid=M3w3NTY2NjZ8MHwxfHNlYXJjaHwxfHxCdWRkaGlzdCUyMG1vbmFzdGVyeXxlbnwwfHx8fDE3NjIxMDQ4MDZ8MA&ixlib=rb-4.1.0&q=85")],
   [( "id", Value.str "trip-4"), ( "destination_id", Value.str "dest-4"),
    ( "destination_name", Value.str "Shillong"),
    ( "title", Value.str "Shillong Explorer - 4 Days"),
    ( "duration", Value.str "4 Days / 3 Nights"),
    ( "price_veg", Value.int 15400), ( "price_non_veg", Value.int 17400),
    ( "pickup_time", Value.str "9:00 AM from Guwahati Airport/Station"),
    ( "itinerary", Value.list
      ["Day 1: Guwahati to Shillong, Umiam Lake visit",
       "Day 2: Cherrapunji day trip - Nohkalikai Falls, Seven Sisters Falls, Mawsmai Cave",
       "Day 3: Elephant Falls, Shillong Peak, Ward\x27s Lake, Police Bazaar",
       "Day 4: Departure to Guwahati"]),
    ( "inclusions", Value.list
      ["Accommodation", "Breakfast, lunch & dinner", "Transfers",
       "Sightseeing", "Entry tickets"]),
    ( "exclusions", Value.list
      ["Personal expenses", "Camera fees", "Adventure activities"]),
    ( "image_url", Value.str "https://images.unsplash.com/photo-1752063497357-4a9e0b765771?crop=entropy&cs=srgb&fm=jpg&ixid=M3w3NDQ2NDN8MHwxfHNlYXJjaHwyfHxIaW1hbGF5YW4lMjBtb3VudGFpbiUyMHZpc3RhfGVufDB8fHx8MTc2MjEwNDgwNXww&ixlib=rb-4.1.0&q=85")]]

/-- `POST /api/seed`: delete every destination and every trip, then
bulk-insert the fixed dataset; bookings are untouched.  Returns the
summary counts of inserted destinations and trips. -/
def seed_data (s : DB) : (Nat × Nat) × DB :=
  (( destinations_data.length, trips_data.length),
   { s with
      destinations := withOids destinations_data s.nextOid,
      trips := withOids trips_data (s.nextOid + destinations_data.length),
      nextOid := s.nextOid + destinations_data.length + trips_data.length })

/-! Facts about the uuid rendering and the ISO-8601 round-trip. -/

theorem padBE_length (b : Nat) : ∀ w n, (padBE b w n).length = w := by
  intro w
  induction w with
  | zero => intro n; rfl
  | succ w ih => intro n; simp [padBE, ih]

theorem padBE_mem_lt {b : Nat} (hb : 0 < b) :
    ∀ w n d, d ∈ padBE b w n → d < b := by
  intro w
  induction w with
  | zero => intro n d hd; simp [padBE] at hd
  | succ w ih =>
    intro n d hd
    simp only [padBE, List.mem_cons] at hd
    rcases hd with h | h
    · exact h ▸ Nat.mod_lt _ hb
    · exact ih n d h

theorem hexVal_hexDigitChar {d : Nat} (hd : d < 16) :
    hexVal (hexDigitChar d) = d := by
  interval_cases d <;> decide

theorem hexDigitChar_ne_dash {d : Nat} (hd : d < 16) :
    hexDigitChar d ≠ '-' := by
  interval_cases d <;> decide

theorem hexStep_dash (a : Nat) : hexStep a '-' = a := by
  simp [hexStep]

theorem foldl_hexStep_map :
    ∀ (l : List Nat), (∀ d ∈ l, d < 16) → ∀ a : Nat,
      List.foldl hexStep a (l.map hexDigitChar) =
        List.foldl (fun x d => x * 16 + d) a l := by
  intro l
  induction l with
  | nil => intro _ a; rfl
  | cons d ds ih =>
    intro hl a
    have hd : d < 16 := hl d (List.mem_cons_self d ds)
    have hds : ∀ e ∈ ds, e < 16 := fun e he => hl e (List.mem_cons_of_mem d he)
    simp only [List.map_cons, List.foldl_cons, hexStep,
      if_neg (hexDigitChar_ne_dash hd), hexVal_hexDigitChar hd, ih hds]

theorem foldl_base16_padBE :
    ∀ (w a n : Nat),
      List.foldl (fun x d => x * 16 + d) a (padBE 16 w n) =
        a * 16 ^ w + n % 16 ^ w := by
  intro w
  induction w with
  | zero => intro a n; simp [padBE, Nat.mod_one]
  | succ w ih =>
    intro a n
    simp only [padBE, List.foldl_cons, ih, Nat.mod_pow_succ]
    ring

theorem collectHex_uuid4 {n : Nat} (hn : n < 16 ^ 32) :
    collectHex (uuid4String n).data = n := by
  have hmem : ∀ d ∈ padBE 16 32 n, d < 16 := padBE_mem_lt (by norm_num) 32 n
  show List.foldl hexStep 0 _ = n
  simp only [uuid4String, List.foldl_append, List.foldl_cons, hexStep_dash]
  rw [← List.foldl_append, ← List.foldl_append, ← List.foldl_append,
    ← List.foldl_append]
  rw [List.take_append_drop, List.take_append_drop, List.take_append_drop,
    List.take_append_drop]
  rw [uuidHexChars, foldl_hexStep_map _ hmem, foldl_base16_padBE]
  simpa using Nat.mod_eq_of_lt hn

theorem uuid4String_injOn {a b : Nat} (ha : a < 16 ^ 32) (hb : b < 16 ^ 32)
    (h : uuid4String a = uuid4String b) : a = b := by
  have h2 := congrArg (fun s => collectHex s.data) h
  simpa [collectHex_uuid4 ha, collectHex_uuid4 hb] using h2

theorem uuid4String_length (n : Nat) : (uuid4String n).length = 36 := by
  have hlen : (uuidHexChars n).length = 32 := by
    simp [uuidHexChars, padBE_length]
  simp [uuid4String, String.length, hlen]

theorem uuid4String_ne_empty (n : Nat) : uuid4String n ≠ "" := by
  intro h
  have h2 := congrArg String.length h
  rw [uuid4String_length n] at h2
  simp at h2

theorem charToDigit_digitChar10 (n : Nat) :
    charToDigit (digitChar10 n) = some (n % 10) := by
  have h : n % 10 < 10 := Nat.mod_lt _ (by norm_num)
  unfold digitChar10
  generalize n % 10 = k at h ⊢
  interval_cases k <;> decide

theorem parse2_digits {n : Nat} (h : n ≤ 99) :
    parse2 (digitChar10 (n / 10)) (digitChar10 n) = some n := by
  simp only [parse2, charToDigit_digitChar10]
  congr 1
  omega

theorem parse4_digits {n : Nat} (h : n ≤ 9999) :
    parse4 (digitChar10 (n / 1000)) (digitChar10 (n / 100))
      (digitChar10 (n / 10)) (digitChar10 n) = some n := by
  simp only [parse4, charToDigit_digitChar10]
  congr 1
  omega

theorem parse6_digits {n : Nat} (h : n ≤ 999999) :
    parse6 (digitChar10 (n / 100000)) (digitChar10 (n / 10000))
      (digitChar10 (n / 1000)) (digitChar10 (n / 100))
      (digitChar10 (n / 10)) (digitChar10 n) = some n := by
  simp only [parse6, charToDigit_digitChar10]
  congr 1
  omega

theorem daysInMonth_le (y m : Nat) : daysInMonth y m ≤ 31 := by
  unfold daysInMonth
  split_ifs <;> norm_num

/-- Serializing a valid UTC datetime with `isoformat` and parsing the
string back with `fromisoformat` recovers the same instant. -/
theorem fromisoformat_isoformat {t : DateTime} (h : t.Valid) :
    fromisoformat (isoformat t) = some t := by
  obtain ⟨y, mo, da, ho, mi, se, us⟩ := t
  have hv : validParts y mo da ho mi se us = true := h
  have hv2 := hv
  unfold validParts at hv2
  simp only [Bool.and_eq_true, decide_eq_true_eq] at hv2
  obtain ⟨⟨⟨⟨⟨⟨⟨⟨⟨h1, h2⟩, h3⟩, h4⟩, h5⟩, h6⟩, h7⟩, h8⟩, h9⟩, h10⟩ := hv2
  have hda : da ≤ 99 := Nat.le_trans h6 (Nat.le_trans (daysInMonth_le y mo) (by norm_num))
  show fromisoformatL (isoformatL ⟨y, mo, da, ho, mi, se, us⟩) =
    some ⟨y, mo, da, ho, mi, se, us⟩
  by_cases hus : us = 0
  · subst hus
    simp only [isoformatL, pad4, pad2, pad6, eq_self_iff_true, if_true,
      List.cons_append, List.nil_append, List.append_nil]
    simp only [fromisoformatL, parseTail,
      parse4_digits h2, parse2_digits (Nat.le_trans h4 (by norm_num)),
      parse2_digits hda,
      parse2_digits (Nat.le_trans h7 (by norm_num)),
      parse2_digits (Nat.le_trans h8 (by norm_num)),
      parse2_digits (Nat.le_trans h9 (by norm_num))]
    simp [hv]
  · simp only [isoformatL, pad4, pad2, pad6, if_neg hus, List.cons_append,
      List.nil_append, List.append_nil]
    simp only [fromisoformatL, parseTail,
      parse4_digits h2, parse2_digits (Nat.le_trans h4 (by norm_num)),
      parse2_digits hda,
      parse2_digits (Nat.le_trans h7 (by norm_num)),
      parse2_digits (Nat.le_trans h8 (by norm_num)),
      parse2_digits (Nat.le_trans h9 (by norm_num)),
      parse6_digits h10]
    simp [hv]

/-! Shared lemmas about the store primitives. -/

theorem lookup_cons_ne {k k1 : String} (v1 : Value) (rest : Document)
    (h : k ≠ k1) : ((k1, v1) :: rest).lookup k = rest.lookup k := by
  simp [List.lookup_cons, beq_false_of_ne h]

theorem stripId_cons_id (v : Value) (d : Document) :
    stripId (( "_id", v) :: d) = stripId d := by
  simp [stripId, List.filter_cons]

theorem stripId_cons_ne {k1 : String} (h : k1 ≠ "_id") (v1 : Value)
    (d : Document) : stripId ((k1, v1) :: d) = (k1, v1) :: stripId d := by
  simp [stripId, List.filter_cons, h]

theorem lookup_stripId (d : Document) {k : String} (hk : k ≠ "_id") :
    (stripId d).lookup k = d.lookup k := by
  induction d with
  | nil => rfl
  | cons kv rest ih =>
    obtain ⟨k1, v1⟩ := kv
    by_cases h : k1 = "_id"
    · subst h
      rw [stripId_cons_id, ih, lookup_cons_ne _ _ hk]
    · rw [stripId_cons_ne h]
      by_cases hk1 : k = k1
      · subst hk1
        simp
      · rw [lookup_cons_ne _ _ hk1, lookup_cons_ne _ _ hk1, ih]

theorem lookup_stripId_id (d : Document) : (stripId d).lookup "_id" = none := by
  induction d with
  | nil => rfl
  | cons kv rest ih =>
    obtain ⟨k1, v1⟩ := kv
    by_cases h : k1 = "_id"
    · subst h
      rw [stripId_cons_id]
      exact ih
    · rw [stripId_cons_ne h, lookup_cons_ne _ _ (fun hh => h hh.symm), ih]

theorem matchesQuery_nil (d : Document) : matchesQuery [] d = true := rfl

theorem matchesQuery_single {k : String} {v : Value} {d : Document} :
    matchesQuery [(k, v)] d = true ↔ d.lookup k = some v := by
  simp [matchesQuery]

theorem findList_length_le (coll : List Document) (q : List (String × Value))
    (limit : Nat) : (findList coll q limit).length ≤ limit := by
  simp [findList]

theorem mem_findList {coll : List Document} {q : List (String × Value)}
    {limit : Nat} {d : Document} (hd : d ∈ findList coll q limit) :
    ∃ d0 ∈ coll, matchesQuery q d0 = true ∧ d = stripId d0 := by
  have hd2 := List.mem_of_mem_take hd
  simp only [List.mem_map, List.mem_filter] at hd2
  obtain ⟨d0, ⟨hmem, hq⟩, hstrip⟩ := hd2
  exact ⟨d0, hmem, hq, hstrip.symm⟩

theorem setKey_cons (k1 : String) (v1 : Value) (rest : Document)
    (k : String) (v : Value) :
    setKey ((k1, v1) :: rest) k v =
      (if k1 = k then (k, v) else (k1, v1)) :: setKey rest k v := by
  simp [setKey]

theorem lookup_setKey_ne (d : Document) {k k2 : String} (v : Value)
    (h : k2 ≠ k) : (setKey d k v).lookup k2 = d.lookup k2 := by
  induction d with
  | nil => rfl
  | cons kv rest ih =>
    obtain ⟨k1, v1⟩ := kv
    rw [setKey_cons]
    by_cases hk1 : k1 = k
    · rw [if_pos hk1, lookup_cons_ne _ _ h,
        lookup_cons_ne _ _ (fun hh => h (hh.trans hk1)), ih]
    · rw [if_neg hk1]
      by_cases hk2 : k2 = k1
      · subst hk2
        simp
      · rw [lookup_cons_ne _ _ hk2, lookup_cons_ne _ _ hk2, ih]

theorem lookup_setKey_self (d : Document) (k : String) (v v0 : Value)
    (h : d.lookup k = some v0) :
    (setKey d k v).lookup k = some v := by
  induction d with
  | nil => simp at h
  | cons kv rest ih =>
    obtain ⟨k1, v1⟩ := kv
    rw [setKey_cons]
    by_cases hk1 : k1 = k
    · rw [if_pos hk1]
      exact List.lookup_cons_self
    · rw [if_neg hk1]
      have hne : k ≠ k1 := fun hh => hk1 hh.symm
      rw [lookup_cons_ne _ _ hne]
      rw [lookup_cons_ne _ _ hne] at h
      exact ih h

theorem fixBookings_append {l1 l2 : List Document} {r1 r2 : List Document}
    (h1 : fixBookings l1 = some r1) (h2 : fixBookings l2 = some r2) :
    fixBookings (l1 ++ l2) = some (r1 ++ r2) := by
  induction l1 generalizing r1 with
  | nil =>
    simp only [fixBookings] at h1
    cases h1
    simpa using h2
  | cons d ds ih =>
    simp only [fixBookings] at h1 ⊢
    cases hd : readBooking d with
    | none => simp [hd] at h1
    | some d2 =>
      simp only [hd] at h1
      cases hds : fixBookings ds with
      | none => simp [hds] at h1
      | some rest =>
        simp only [hds] at h1
        cases h1
        simp [List.cons_append, ih hds]

theorem fixBookings_length :
    ∀ {l r : List Document}, fixBookings l = some r → r.length = l.length := by
  intro l
  induction l with
  | nil =>
    intro r h
    simp only [fixBookings] at h
    cases h
    rfl
  | cons d ds ih =>
    intro r h
    simp only [fixBookings] at h
    cases hd : readBooking d with
    | none => simp [hd] at h
    | some d2 =>
      simp only [hd] at h
      cases hds : fixBookings ds with
      | none => simp [hds] at h
      | some rest =>
        simp only [hds] at h
        cases h
        simp [ih hds]

theorem fixBookings_mem :
    ∀ {l r : List Document}, fixBookings l = some r → ∀ d2 ∈ r,
      ∃ d ∈ l, readBooking d = some d2 := by
  intro l
  induction l with
  | nil =>
    intro r h d2 hd2
    simp only [fixBookings] at h
    cases h
    simp at hd2
  | cons d ds ih =>
    intro r h d2 hd2
    simp only [fixBookings] at h
    cases hd : readBooking d with
    | none => simp [hd] at h
    | some e =>
      simp only [hd] at h
      cases hds : fixBookings ds with
      | none => simp [hds] at h
      | some rest =>
        simp only [hds] at h
        cases h
        rcases List.mem_cons.mp hd2 with h | h
        · exact ⟨d, List.mem_cons_self d ds, h ▸ hd⟩
        · obtain ⟨e2, he2, hr⟩ := ih hds d2 h
          exact ⟨e2, List.mem_cons_of_mem d he2, hr⟩

theorem withOids_length :
    ∀ (docs : List Document) (oid : Nat), (withOids docs oid).length = docs.length := by
  intro docs
  induction docs with
  | nil => intro oid; rfl
  | cons d ds ih => intro oid; simp [withOids, ih]

theorem map_stripId_withOids :
    ∀ (docs : List Document) (oid : Nat),
      (withOids docs oid).map stripId = docs.map stripId := by
  intro docs
  induction docs with
  | nil => intro oid; rfl
  | cons d ds ih => intro oid; simp [withOids, stripId_cons_id, ih]

theorem map_lookup_withOids {k : String} (hk : k ≠ "_id") :
    ∀ (docs : List Document) (oid : Nat),
      (withOids docs oid).map (fun d => d.lookup k) =
        docs.map (fun d => d.lookup k) := by
  intro docs
  induction docs with
  | nil => intro oid; rfl
  | cons d ds ih => intro oid; simp [withOids, lookup_cons_ne _ _ hk, ih]

/-- C6: the Seed operation leaves the bookings collection unchanged:
for every prior store state, the Booking records (hence the Booking
count) after `seed_data` are exactly those before the invocation. -/
theorem c6_seed_preserves_bookings (s : DB) :
    (seed_data s).2.bookings = s.bookings := rfl

/-- C2: the Seed operation is idempotent on the store state: after any
invocation (in particular after a second invocation immediately
following a first) the destinations collection holds exactly the 4
fixed records and the trips collection exactly the 4 fixed records
(up to the store-internal id), and every invocation returns the
summary counts (4, 4). -/
theorem c2_seed_idempotent (s : DB) :
    ((seed_data s).2.destinations).map stripId = destinations_data ∧
    ((seed_data s).2.trips).map stripId = trips_data ∧
    (seed_data s).2.destinations.length = 4 ∧
    (seed_data s).2.trips.length = 4 ∧
    (seed_data s).1 = (4, 4) ∧
    ((seed_data (seed_data s).2).2.destinations).map stripId =
      ((seed_data s).2.destinations).map stripId ∧
    ((seed_data (seed_data s).2).2.trips).map stripId =
      ((seed_data s).2.trips).map stripId ∧
    (seed_data (seed_data s).2).2.bookings = (seed_data s).2.bookings ∧
    (seed_data (seed_data s).2).1 = (4, 4) := by
  have hdest : ∀ oid, (withOids destinations_data oid).map stripId =
      destinations_data := by
    intro oid
    rw [map_stripId_withOids]
    rfl
  have htrips : ∀ oid, (withOids trips_data oid).map stripId = trips_data := by
    intro oid
    rw [map_stripId_withOids]
    rfl
  have hA : ∀ s0 : DB, ((seed_data s0).2.destinations).map stripId =
      destinations_data :=
    fun s0 => hdest s0.nextOid
  have hB : ∀ s0 : DB, ((seed_data s0).2.trips).map stripId = trips_data :=
    fun s0 => htrips (s0.nextOid + destinations_data.length)
  exact ⟨hA s, hB s,
    (withOids_length destinations_data s.nextOid).trans rfl,
    (withOids_length trips_data (s.nextOid + destinations_data.length)).trans rfl,
    rfl,
    (hA _).trans (hA s).symm,
    (hB _).trans (hB s).symm,
    rfl, rfl⟩

/-- C10: immediately after Seed, referential integrity holds within the
seeded dataset: listing the `destination_id` of the seeded trips in
order gives exactly the `id` fields of the seeded destinations in
order (trip-N references dest-N), so every seeded trip references one
of the four seeded destinations. -/
theorem c10_seed_referential_integrity (s : DB) :
    ((seed_data s).2.trips).map (fun d => d.lookup "destination_id") =
      ((seed_data s).2.destinations).map (fun d => d.lookup "id") ∧
    ((seed_data s).2.destinations).map (fun d => d.lookup "id") =
      [some (Value.str "dest-1"), some (Value.str "dest-2"),
       some (Value.str "dest-3"), some (Value.str "dest-4")] ∧
    (∀ d ∈ (seed_data s).2.trips, ∃ d0 ∈ (seed_data s).2.destinations,
      d.lookup "destination_id" = d0.lookup "id") := by
  have hd : ((seed_data s).2.destinations).map (fun d => d.lookup "id") =
      [some (Value.str "dest-1"), some (Value.str "dest-2"),
       some (Value.str "dest-3"), some (Value.str "dest-4")] := by
    rw [show (seed_data s).2.destinations =
      withOids destinations_data s.nextOid from rfl,
      map_lookup_withOids (by decide)]
    rfl
  have ht : ((seed_data s).2.trips).map (fun d => d.lookup "destination_id") =
      [some (Value.str "dest-1"), some (Value.str "dest-2"),
       some (Value.str "dest-3"), some (Value.str "dest-4")] := by
    rw [show (seed_data s).2.trips =
      withOids trips_data (s.nextOid + destinations_data.length) from rfl,
      map_lookup_withOids (by decide)]
    rfl
  refine ⟨ht.trans hd.symm, hd, ?_⟩
  intro d hd2
  have hmap := congrArg (fun l => d.lookup "destination_id" ∈ l) ht
  have hin : d.lookup "destination_id" ∈
      ((seed_data s).2.trips).map (fun d => d.lookup "destination_id") :=
    List.mem_map_of_mem _ hd2
  rw [ht] at hin
  have hin2 : d.lookup "destination_id" ∈
      ((seed_data s).2.destinations).map (fun d => d.lookup "id") := by
    rw [hd]
    exact hin
  obtain ⟨d0, hd0, hEq⟩ := List.mem_map.mp hin2
  exact ⟨d0, hd0, hEq.symm⟩

theorem matchesQuery_one (k : String) (v : Value) (d : Document) :
    matchesQuery [(k, v)] d = (d.lookup k == some v) := by
  simp [matchesQuery]

/-- C1 counterexample: with one stored trip whose `destination_id` is
"d1", listing trips with the empty-string filter value returns that
trip (the Python truthiness test discards the filter), not the empty
set of records whose `destination_id` equals "" — so the claim fails
for the supplied filter value X = "". -/
theorem c1_empty_filter_counterexample :
    get_trips ⟨[], [[( "id", Value.str "t1"),
        ( "destination_id", Value.str "d1")]], [], 0⟩ (some "") =
      Except.ok [[( "id", Value.str "t1"),
        ( "destination_id", Value.str "d1")]] ∧
    ¬ (∀ d ∈ [[( "id", Value.str "t1"),
          ( "destination_id", Value.str "d1")]],
        d.lookup "destination_id" = some (Value.str "")) := by
  constructor
  · rfl
  · decide

/-- C1 (amended): for every NON-empty filter value x, listing trips
returns exactly the stored records whose `destination_id` equals x
(store-internal id stripped, truncated to the first 1000 matches), and
for any such x matching zero records it returns the empty sequence
rather than an error; an empty-string filter value is treated as no
filter at all. -/
theorem c1_trips_filter (s : DB) (x : String) (hx : x ≠ "") :
    get_trips s (some x) =
      Except.ok (((s.trips.filter
        (fun d => d.lookup "destination_id" == some (Value.str x))).map
          stripId).take 1000) ∧
    (∀ l, get_trips s (some x) = Except.ok l →
      ∀ d ∈ l, d.lookup "destination_id" = some (Value.str x)) ∧
    ((∀ d ∈ s.trips, d.lookup "destination_id" ≠ some (Value.str x)) →
      get_trips s (some x) = Except.ok []) := by
  have hq : tripsQuery (some x) = [( "destination_id", Value.str x)] := by
    simp [tripsQuery, hx]
  have hkey : ("destination_id" : String) ≠ "_id" := by decide
  refine ⟨?_, ?_, ?_⟩
  · have hfil : s.trips.filter (matchesQuery [( "destination_id", Value.str x)]) =
        s.trips.filter (fun d => d.lookup "destination_id" == some (Value.str x)) :=
      List.filter_congr (fun d _ => matchesQuery_one _ _ d)
    simp only [get_trips, hq, findList, hfil]
  · intro l hl d hd
    have hl2 : l = findList s.trips (tripsQuery (some x)) 1000 := by
      simpa [get_trips] using hl.symm
    subst hl2
    obtain ⟨d0, hmem, hmatch, hstrip⟩ := mem_findList hd
    rw [hq] at hmatch
    have hlook := matchesQuery_single.mp hmatch
    rw [hstrip, lookup_stripId _ hkey]
    exact hlook
  · intro hnone
    have hfil : s.trips.filter (matchesQuery (tripsQuery (some x))) = [] := by
      rw [hq]
      refine List.filter_eq_nil_iff.mpr ?_
      intro d hd
      rw [matchesQuery_one]
      simp only [beq_iff_eq]
      exact hnone d hd
    simp [get_trips, findList, hfil]

/-- C1 witness: the amended theorem applied at a concrete one-trip
state and the non-empty filter value "d1". -/
theorem c1_trips_filter_witness :
    ("d1" : String) ≠ "" ∧
    get_trips ⟨[], [[( "id", Value.str "t1"),
        ( "destination_id", Value.str "d1")]], [], 0⟩ (some "d1") =
      Except.ok [[( "id", Value.str "t1"),
        ( "destination_id", Value.str "d1")]] :=
  ⟨by decide, by
    rw [(c1_trips_filter ⟨[], [[( "id", Value.str "t1"),
        ( "destination_id", Value.str "d1")]], [], 0⟩ "d1" (by decide)).1]
    rfl⟩

/-- C5: `get_trip` fails with NotFound exactly when no stored trip
document carries the requested identifier; when one does, the first
matching document (projected) is returned; and no other operation of
the service can produce NotFound. -/
theorem c5_get_trip_notfound (s : DB) (tid : String) :
    (get_trip s tid = Except.error ApiErr.notFound ↔
      ∀ d ∈ s.trips, d.lookup "id" ≠ some (Value.str tid)) ∧
    (∀ t, get_trip s tid = Except.ok t →
      ∃ d0 ∈ s.trips, d0.lookup "id" = some (Value.str tid) ∧
        t = stripId d0) ∧
    get_destinations s ≠ Except.error ApiErr.notFound ∧
    (∀ x, get_trips s x ≠ Except.error ApiErr.notFound) ∧
    get_bookings s ≠ Except.error ApiErr.notFound ∧
    (∀ rnd p, (create_destination s rnd p).1 ≠ Except.error ApiErr.notFound) ∧
    (∀ rnd p, (create_trip s rnd p).1 ≠ Except.error ApiErr.notFound) ∧
    (∀ rnd now p,
      (create_booking s rnd now p).1 ≠ Except.error ApiErr.notFound) := by
  have hkey : ("id" : String) ≠ "_id" := by decide
  refine ⟨?_, ?_, ?_, ?_, ?_, ?_, ?_, ?_⟩
  · cases hf : s.trips.filter (matchesQuery [( "id", Value.str tid)]) with
    | nil =>
      have herr : get_trip s tid = Except.error ApiErr.notFound := by
        simp [get_trip, findOne, hf]
      constructor
      · intro _ d hd hlook
        have hm : matchesQuery [( "id", Value.str tid)] d = true :=
          matchesQuery_single.mpr hlook
        have : d ∈ s.trips.filter (matchesQuery [( "id", Value.str tid)]) :=
          List.mem_filter.mpr ⟨hd, hm⟩
        rw [hf] at this
        simp at this
      · intro _
        exact herr
    | cons d0 rest =>
      have hd0 : d0 ∈ s.trips ∧
          matchesQuery [( "id", Value.str tid)] d0 = true := by
        have : d0 ∈ s.trips.filter (matchesQuery [( "id", Value.str tid)]) := by
          rw [hf]
          exact List.mem_cons_self _ _
        exact List.mem_filter.mp this
      have hlook : d0.lookup "id" = some (Value.str tid) :=
        matchesQuery_single.mp hd0.2
      have hsl : (stripId d0).lookup "id" = some (Value.str tid) := by
        rw [lookup_stripId _ hkey]
        exact hlook
      have hne : (stripId d0).isEmpty = false := by
        cases hsd : stripId d0 with
        | nil =>
          rw [hsd] at hsl
          simp at hsl
        | cons a l => rfl
      have hok : get_trip s tid = Except.ok (stripId d0) := by
        simp [get_trip, findOne, hf, hne]
      constructor
      · intro herr
        rw [hok] at herr
        exact absurd herr (by simp)
      · intro hall
        exact absurd hlook (hall d0 hd0.1)
  · intro t ht
    cases hf : s.trips.filter (matchesQuery [( "id", Value.str tid)]) with
    | nil =>
      rw [show get_trip s tid = Except.error ApiErr.notFound by
        simp [get_trip, findOne, hf]] at ht
      exact absurd ht (by simp)
    | cons d0 rest =>
      have hd0 : d0 ∈ s.trips ∧
          matchesQuery [( "id", Value.str tid)] d0 = true := by
        have : d0 ∈ s.trips.filter (matchesQuery [( "id", Value.str tid)]) := by
          rw [hf]
          exact List.mem_cons_self _ _
        exact List.mem_filter.mp this
      have hlook : d0.lookup "id" = some (Value.str tid) :=
        matchesQuery_single.mp hd0.2
      have hsl : (stripId d0).lookup "id" = some (Value.str tid) := by
        rw [lookup_stripId _ hkey]
        exact hlook
      have hne : (stripId d0).isEmpty = false := by
        cases hsd : stripId d0 with
        | nil =>
          rw [hsd] at hsl
          simp at hsl
        | cons a l => rfl
      have hok : get_trip s tid = Except.ok (stripId d0) := by
        simp [get_trip, findOne, hf, hne]
      rw [hok] at ht
      exact ⟨d0, hd0.1, hlook, (Except.ok.inj ht).symm⟩
  · simp [get_destinations]
  · intro x
    simp [get_trips]
  · unfold get_bookings
    split <;> simp
  · intro rnd p
    unfold create_destination
    cases hv : DestinationCreate.validate p <;> simp
  · intro rnd p
    unfold create_trip
    cases hv : TripPackageCreate.validate p <;> simp
  · intro rnd now p
    unfold create_booking
    cases hv : BookingCreate.validate p <;> simp

/-- C5 witness: on the empty store, getting any trip id yields
NotFound (the iff's hypothesis side discharged at a concrete input). -/
theorem c5_get_trip_notfound_witness :
    get_trip ⟨[], [], [], 0⟩ "zzz" = Except.error ApiErr.notFound :=
  (c5_get_trip_notfound ⟨[], [], [], 0⟩ "zzz").1.mpr (by simp)

theorem findList_nil_query (coll : List Document) (limit : Nat) :
    findList coll [] limit = (coll.map stripId).take limit := by
  have : coll.filter (matchesQuery []) = coll := by
    have : ∀ d ∈ coll, matchesQuery [] d = true := fun d _ => rfl
    rw [List.filter_congr this, List.filter_true]
  rw [findList, this]

theorem readBooking_shape {d d2 : Document} (h : readBooking d = some d2) :
    d2 = d ∨ ∃ t, d2 = setKey d "booking_date" (Value.dt t) := by
  cases hl : d.lookup "booking_date" with
  | none =>
    simp [readBooking, hl] at h
    exact Or.inl h.symm
  | some v =>
    cases v with
    | str s0 =>
      cases hp : fromisoformat s0 with
      | none => simp [readBooking, hl, hp] at h
      | some t =>
        simp [readBooking, hl, hp] at h
        exact Or.inr ⟨t, h.symm⟩
    | int n =>
      simp [readBooking, hl] at h
      exact Or.inl h.symm
    | num q =>
      simp [readBooking, hl] at h
      exact Or.inl h.symm
    | list l =>
      simp [readBooking, hl] at h
      exact Or.inl h.symm
    | dt t =>
      simp [readBooking, hl] at h
      exact Or.inl h.symm

/-- C7: every List operation returns at most 1000 records, the
store-internal `_id` field is absent from every returned record, and
an empty match set yields the empty sequence, not an error. -/
theorem c7_list_cap_strip (s : DB) :
    (∀ l, get_destinations s = Except.ok l →
      l.length ≤ 1000 ∧ ∀ d ∈ l, d.lookup "_id" = none) ∧
    (s.destinations = [] → get_destinations s = Except.ok []) ∧
    (∀ x l, get_trips s x = Except.ok l →
      l.length ≤ 1000 ∧ ∀ d ∈ l, d.lookup "_id" = none) ∧
    (∀ x, s.trips.filter (matchesQuery (tripsQuery x)) = [] →
      get_trips s x = Except.ok []) ∧
    (∀ l, get_bookings s = Except.ok l →
      l.length ≤ 1000 ∧ ∀ d ∈ l, d.lookup "_id" = none) ∧
    (s.bookings = [] → get_bookings s = Except.ok []) := by
  refine ⟨?_, ?_, ?_, ?_, ?_, ?_⟩
  · intro l hl
    have hl2 : l = findList s.destinations [] 1000 := by
      simpa [get_destinations] using hl.symm
    subst hl2
    refine ⟨findList_length_le _ _ _, ?_⟩
    intro d hd
    obtain ⟨d0, _, _, hstrip⟩ := mem_findList hd
    rw [hstrip]
    exact lookup_stripId_id d0
  · intro h
    simp [get_destinations, h, findList]
  · intro x l hl
    have hl2 : l = findList s.trips (tripsQuery x) 1000 := by
      simpa [get_trips] using hl.symm
    subst hl2
    refine ⟨findList_length_le _ _ _, ?_⟩
    intro d hd
    obtain ⟨d0, _, _, hstrip⟩ := mem_findList hd
    rw [hstrip]
    exact lookup_stripId_id d0
  · intro x hfil
    simp [get_trips, findList, hfil]
  · intro l hl
    have hfix : fixBookings (findList s.bookings [] 1000) = some l := by
      unfold get_bookings at hl
      cases hf : fixBookings (findList s.bookings [] 1000) with
      | none =>
        rw [hf] at hl
        exact absurd hl (by simp)
      | some l2 =>
        rw [hf] at hl
        have hll : l2 = l := by simpa using hl
        exact congrArg Option.some hll
    constructor
    · rw [fixBookings_length hfix]
      exact findList_length_le _ _ _
    · intro d2 hd2
      obtain ⟨d, hd, hrb⟩ := fixBookings_mem hfix d2 hd2
      obtain ⟨d0, _, _, hstrip⟩ := mem_findList hd
      have hid : d.lookup "_id" = none := by
        rw [hstrip]
        exact lookup_stripId_id d0
      rcases readBooking_shape hrb with h | ⟨t, h⟩
      · rw [h]
        exact hid
      · rw [h, lookup_setKey_ne _ _ (by decide)]
        exact hid
  · intro h
    simp [get_bookings, h, findList, fixBookings]

/-- C7 witness: the theorem applied at a concrete two-record state
(its listing implications discharged on the computed listings). -/
theorem c7_list_cap_strip_witness :
    get_destinations ⟨[[( "_id", Value.int 7), ( "id", Value.str "a")]],
        [], [], 8⟩ = Except.ok [[( "id", Value.str "a")]] ∧
    ([[( "id", Value.str "a")]] : List Document).length ≤ 1000 ∧
    ∀ d ∈ ([[( "id", Value.str "a")]] : List Document),
      d.lookup "_id" = none := by
  refine ⟨rfl, ?_⟩
  exact (c7_list_cap_strip ⟨[[( "_id", Value.int 7),
    ( "id", Value.str "a")]], [], [], 8⟩).1 _ rfl

/-- C8: for every valid Destination creation payload the handler
succeeds, the returned record's identifier is the generated uuid
string (non-empty), exactly one document is inserted (appended, with
no duplicate detection and no other collection touched), and two calls
with the identical payload but distinct drawn uuid values return
records with distinct identifiers. -/
theorem c8_create_destination_ids (s : DB) (rnd : Nat) (payload : Document)
    (inp : DestinationCreate)
    (hv : DestinationCreate.validate payload = some inp)
    (hrnd : rnd < 16 ^ 32) :
    ∃ obj : Destination,
      (create_destination s rnd payload).1 = Except.ok obj ∧
      obj.id = uuid4String rnd ∧
      obj.id ≠ "" ∧
      (create_destination s rnd payload).2.destinations =
        s.destinations ++ [( "_id", Value.int s.nextOid) :: obj.model_dump] ∧
      (create_destination s rnd payload).2.trips = s.trips ∧
      (create_destination s rnd payload).2.bookings = s.bookings ∧
      (∀ (s2 : DB) (rnd2 : Nat), rnd2 < 16 ^ 32 → rnd2 ≠ rnd →
        ∀ obj2 : Destination,
          (create_destination s2 rnd2 payload).1 = Except.ok obj2 →
          obj2.id ≠ obj.id) := by
  refine ⟨{ id := uuid4String rnd, name := inp.name, region := inp.region,
            description := inp.description, image_url := inp.image_url,
            highlights := inp.highlights, best_season := inp.best_season },
    ?_, rfl, uuid4String_ne_empty rnd, ?_, ?_, ?_, ?_⟩
  · simp [create_destination, hv]
  · simp [create_destination, hv, insertOne]
  · simp [create_destination, hv]
  · simp [create_destination, hv]
  · intro s2 rnd2 h2 hne obj2 hobj2
    cases hv2 : DestinationCreate.validate payload with
    | none => rw [hv2] at hv; cases hv
    | some inp2 =>
      simp [create_destination, hv2] at hobj2
      have hid : obj2.id = uuid4String rnd2 := by
        rw [← hobj2]
      rw [hid]
      intro hEq
      exact hne (uuid4String_injOn h2 hrnd hEq)

/-- C8 witness: the theorem applied at the empty store, a concrete
valid payload and the drawn value 0. -/
theorem c8_create_destination_ids_witness :
    DestinationCreate.validate
      [( "name", Value.str "Kohima"), ( "region", Value.str "Nagaland"),
       ( "description", Value.str "d"), ( "image_url", Value.str "http://x"),
       ( "highlights", Value.list ["A"]), ( "best_season", Value.str "Oct")] =
      some ⟨ "Kohima", "Nagaland", "d", "http://x", ["A"], "Oct"⟩ ∧
    (0 : Nat) < 16 ^ 32 ∧
    ∃ obj : Destination,
      (create_destination ⟨[], [], [], 0⟩ 0
        [( "name", Value.str "Kohima"), ( "region", Value.str "Nagaland"),
         ( "description", Value.str "d"), ( "image_url", Value.str "http://x"),
         ( "highlights", Value.list ["A"]), ( "best_season", Value.str "Oct")]).1 =
        Except.ok obj ∧
      obj.id = uuid4String 0 ∧
      obj.id ≠ "" ∧
      (create_destination ⟨[], [], [], 0⟩ 0
        [( "name", Value.str "Kohima"), ( "region", Value.str "Nagaland"),
         ( "description", Value.str "d"), ( "image_url", Value.str "http://x"),
         ( "highlights", Value.list ["A"]), ( "best_season", Value.str "Oct")]).2.destinations =
        ([] : List Document) ++ [( "_id", Value.int 0) :: obj.model_dump] ∧
      (create_destination ⟨[], [], [], 0⟩ 0
        [( "name", Value.str "Kohima"), ( "region", Value.str "Nagaland"),
         ( "description", Value.str "d"), ( "image_url", Value.str "http://x"),
         ( "highlights", Value.list ["A"]), ( "best_season", Value.str "Oct")]).2.trips = [] ∧
      (create_destination ⟨[], [], [], 0⟩ 0
        [( "name", Value.str "Kohima"), ( "region", Value.str "Nagaland"),
         ( "description", Value.str "d"), ( "image_url", Value.str "http://x"),
         ( "highlights", Value.list ["A"]), ( "best_season", Value.str "Oct")]).2.bookings = [] ∧
      (∀ (s2 : DB) (rnd2 : Nat), rnd2 < 16 ^ 32 → rnd2 ≠ 0 →
        ∀ obj2 : Destination,
          (create_destination s2 rnd2
            [( "name", Value.str "Kohima"), ( "region", Value.str "Nagaland"),
             ( "description", Value.str "d"), ( "image_url", Value.str "http://x"),
             ( "highlights", Value.list ["A"]), ( "best_season", Value.str "Oct")]).1 =
            Except.ok obj2 →
          obj2.id ≠ obj.id) :=
  ⟨rfl, by norm_num,
    c8_create_destination_ids ⟨[], [], [], 0⟩ 0 _ _ rfl (by norm_num)⟩

/-- C9: every Booking produced by `create_booking` has the fixed
status "confirmed" and the server-side UTC clock reading as its
booking timestamp; neither field is taken from the client payload —
the same holds even when the payload carries its own "status" and
"booking_date" fields. -/
theorem c9_booking_defaults (s : DB) (rnd : Nat) (now : DateTime)
    (payload : Document) (inp : BookingCreate)
    (hv : BookingCreate.validate payload = some inp) :
    ∃ obj : Booking,
      (create_booking s rnd now payload).1 = Except.ok obj ∧
      obj.status = "confirmed" ∧
      obj.booking_date = now ∧
      (∀ v1 v2 : Value, ∀ obj2 : Booking,
        (create_booking s rnd now
          (payload ++ [( "status", v1), ( "booking_date", v2)])).1 =
            Except.ok obj2 →
        obj2.status = "confirmed" ∧ obj2.booking_date = now) := by
  refine ⟨{ id := uuid4String rnd, trip_id := inp.trip_id,
            trip_title := inp.trip_title, customer_name := inp.customer_name,
            customer_email := inp.customer_email,
            customer_phone := inp.customer_phone,
            travel_date := inp.travel_date, guests := inp.guests,
            meal_preference := inp.meal_preference,
            total_amount := inp.total_amount, booking_date := now,
            status := "confirmed" }, ?_, rfl, rfl, ?_⟩
  · simp [create_booking, hv]
  · intro v1 v2 obj2 hobj2
    cases hv2 : BookingCreate.validate
        (payload ++ [( "status", v1), ( "booking_date", v2)]) with
    | none => simp [create_booking, hv2] at hobj2
    | some inp2 =>
      simp [create_booking, hv2] at hobj2
      exact ⟨by rw [← hobj2], by rw [← hobj2]⟩

/-- C9 witness: the theorem applied at a concrete payload, clock
reading and drawn uuid value. -/
theorem c9_booking_defaults_witness :
    BookingCreate.validate
      [( "trip_id", Value.str "trip-1"), ( "trip_title", Value.str "T"),
       ( "customer_name", Value.str "N"), ( "customer_email", Value.str "E"),
       ( "customer_phone", Value.str "P"), ( "travel_date", Value.str "D"),
       ( "guests", Value.int 2), ( "meal_preference", Value.str "veg"),
       ( "total_amount", Value.int 5)] =
      some ⟨ "trip-1", "T", "N", "E", "P", "D", 2, "veg", (5 : Int)⟩ ∧
    ∃ obj : Booking,
      (create_booking ⟨[], [], [], 0⟩ 0 ⟨2026, 10, 12, 7, 5, 3, 1⟩
        [( "trip_id", Value.str "trip-1"), ( "trip_title", Value.str "T"),
         ( "customer_name", Value.str "N"), ( "customer_email", Value.str "E"),
         ( "customer_phone", Value.str "P"), ( "travel_date", Value.str "D"),
         ( "guests", Value.int 2), ( "meal_preference", Value.str "veg"),
         ( "total_amount", Value.int 5)]).1 = Except.ok obj ∧
      obj.status = "confirmed" ∧
      obj.booking_date = ⟨2026, 10, 12, 7, 5, 3, 1⟩ ∧
      (∀ v1 v2 : Value, ∀ obj2 : Booking,
        (create_booking ⟨[], [], [], 0⟩ 0 ⟨2026, 10, 12, 7, 5, 3, 1⟩
          ([( "trip_id", Value.str "trip-1"), ( "trip_title", Value.str "T"),
            ( "customer_name", Value.str "N"), ( "customer_email", Value.str "E"),
            ( "customer_phone", Value.str "P"), ( "travel_date", Value.str "D"),
            ( "guests", Value.int 2), ( "meal_preference", Value.str "veg"),
            ( "total_amount", Value.int 5)] ++
            [( "status", v1), ( "booking_date", v2)])).1 = Except.ok obj2 →
        obj2.status = "confirmed" ∧
        obj2.booking_date = ⟨2026, 10, 12, 7, 5, 3, 1⟩) :=
  ⟨rfl, c9_booking_defaults ⟨[], [], [], 0⟩ 0 ⟨2026, 10, 12, 7, 5, 3, 1⟩ _ _ rfl⟩

theorem lookup_append_some {l1 l2 : Document} {k : String} {v : Value}
    (h : l1.lookup k = some v) : (l1 ++ l2).lookup k = some v := by
  rw [List.lookup_append, h]
  rfl

theorem getStr_append {p ex : Document} {k : String} {s0 : String}
    (h : getStr p k = some s0) : getStr (p ++ ex) k = some s0 := by
  cases hl : p.lookup k with
  | none => simp [getStr, hl] at h
  | some v =>
    rw [getStr, lookup_append_some hl]
    rw [getStr, hl] at h
    exact h

theorem getInt_append {p ex : Document} {k : String} {n : Int}
    (h : getInt p k = some n) : getInt (p ++ ex) k = some n := by
  cases hl : p.lookup k with
  | none => simp [getInt, hl] at h
  | some v =>
    rw [getInt, lookup_append_some hl]
    rw [getInt, hl] at h
    exact h

theorem getFloat_append {p ex : Document} {k : String} {q : Rat}
    (h : getFloat p k = some q) : getFloat (p ++ ex) k = some q := by
  cases hl : p.lookup k with
  | none => simp [getFloat, hl] at h
  | some v =>
    rw [getFloat, lookup_append_some hl]
    rw [getFloat, hl] at h
    exact h

theorem getStrList_append {p ex : Document} {k : String} {l : List String}
    (h : getStrList p k = some l) : getStrList (p ++ ex) k = some l := by
  cases hl : p.lookup k with
  | none => simp [getStrList, hl] at h
  | some v =>
    rw [getStrList, lookup_append_some hl]
    rw [getStrList, hl] at h
    exact h

/-- Appending fields never seen by the TripPackageCreate schema does
not change the validation outcome of a payload that validates. -/
theorem tripValidate_append (ex : Document) {p : Document}
    {inp : TripPackageCreate}
    (h : TripPackageCreate.validate p = some inp) :
    TripPackageCreate.validate (p ++ ex) = some inp := by
  unfold TripPackageCreate.validate at h ⊢
  split at h
  · rename_i di dn ti du pv pn pi2 it ic exl im h1 h2 h3 h4 h5 h6 h7 h8 h9 h10 h11
    rw [getStr_append h1, getStr_append h2, getStr_append h3,
      getStr_append h4, getFloat_append h5, getFloat_append h6,
      getStr_append h7, getStrList_append h8, getStrList_append h9,
      getStrList_append h10, getStr_append h11]
    exact h
  · cases h

theorem tripDump_lookup_not_mem (x : TripPackage) {k : String}
    (hk : k ∉ tripPackageKeys) : (x.model_dump).lookup k = none := by
  simp only [tripPackageKeys, List.mem_cons, List.mem_singleton,
    not_or] at hk
  obtain ⟨h1, h2, h3, h4, h5, h6, h7, h8, h9, h10, h11, h12⟩ := hk
  unfold TripPackage.model_dump
  rw [lookup_cons_ne _ _ h1, lookup_cons_ne _ _ h2, lookup_cons_ne _ _ h3,
    lookup_cons_ne _ _ h4, lookup_cons_ne _ _ h5, lookup_cons_ne _ _ h6,
    lookup_cons_ne _ _ h7, lookup_cons_ne _ _ h8, lookup_cons_ne _ _ h9,
    lookup_cons_ne _ _ h10, lookup_cons_ne _ _ h11,
    lookup_cons_ne _ _ h12.1]
  rfl

/-- C4: a creation payload containing all required TripPackage fields
plus any set of extra unrecognized fields still validates to the same
input (the extras are silently ignored, not rejected), the create
succeeds, and no key outside the declared field set appears in the
returned record's dump or in the stored document (beyond the
store-internal `_id` the driver itself adds). -/
theorem c4_extra_fields_ignored (s : DB) (rnd : Nat)
    (payload extras : Document) (inp : TripPackageCreate)
    (hv : TripPackageCreate.validate payload = some inp) :
    TripPackageCreate.validate (payload ++ extras) = some inp ∧
    ∃ obj : TripPackage,
      (create_trip s rnd (payload ++ extras)).1 = Except.ok obj ∧
      (∀ k, k ∉ tripPackageKeys → (obj.model_dump).lookup k = none) ∧
      (create_trip s rnd (payload ++ extras)).2.trips =
        s.trips ++ [( "_id", Value.int s.nextOid) :: obj.model_dump] ∧
      (∀ k, k ∉ tripPackageKeys → k ≠ "_id" →
        (( "_id", Value.int s.nextOid) :: obj.model_dump).lookup k =
          none) := by
  have hv2 := tripValidate_append extras hv
  refine ⟨hv2,
    { id := uuid4String rnd, destination_id := inp.destination_id,
      destination_name := inp.destination_name, title := inp.title,
      duration := inp.duration, price_veg := inp.price_veg,
      price_non_veg := inp.price_non_veg, pickup_time := inp.pickup_time,
      itinerary := inp.itinerary, inclusions := inp.inclusions,
      exclusions := inp.exclusions, image_url := inp.image_url },
    ?_, ?_, ?_, ?_⟩
  · simp [create_trip, hv2]
  · intro k hk
    exact tripDump_lookup_not_mem _ hk
  · simp [create_trip, hv2, insertOne]
  · intro k hk hk2
    rw [lookup_cons_ne _ _ hk2]
    exact tripDump_lookup_not_mem _ hk

/-- C4 witness: the theorem applied at a concrete payload and a
concrete extra field, showing the create succeeds and the extra key is
absent from the stored and returned record. -/
theorem c4_extra_fields_ignored_witness :
    TripPackageCreate.validate
      ([( "destination_id", Value.str "dest-1"),
        ( "destination_name", Value.str "G"), ( "title", Value.str "T"),
        ( "duration", Value.str "5d"), ( "price_veg", Value.int 10),
        ( "price_non_veg", Value.int 12), ( "pickup_time", Value.str "8am"),
        ( "itinerary", Value.list ["d1"]),
        ( "inclusions", Value.list ["a"]),
        ( "exclusions", Value.list ["b"]),
        ( "image_url", Value.str "http://i")] ++
       [( "surprise", Value.str "x")]) =
      some ⟨ "dest-1", "G", "T", "5d", 10, 12, "8am", ["d1"], ["a"], ["b"],
        "http://i"⟩ ∧
    ∃ obj : TripPackage,
      (create_trip ⟨[], [], [], 0⟩ 0
        ([( "destination_id", Value.str "dest-1"),
          ( "destination_name", Value.str "G"), ( "title", Value.str "T"),
          ( "duration", Value.str "5d"), ( "price_veg", Value.int 10),
          ( "price_non_veg", Value.int 12), ( "pickup_time", Value.str "8am"),
          ( "itinerary", Value.list ["d1"]),
          ( "inclusions", Value.list ["a"]),
          ( "exclusions", Value.list ["b"]),
          ( "image_url", Value.str "http://i")] ++
         [( "surprise", Value.str "x")])).1 = Except.ok obj ∧
      (obj.model_dump).lookup "surprise" = none ∧
      (( "_id", Value.int 0) :: obj.model_dump).lookup "surprise" = none := by
  have h := c4_extra_fields_ignored ⟨[], [], [], 0⟩ 0
    [( "destination_id", Value.str "dest-1"),
     ( "destination_name", Value.str "G"), ( "title", Value.str "T"),
     ( "duration", Value.str "5d"), ( "price_veg", Value.int 10),
     ( "price_non_veg", Value.int 12), ( "pickup_time", Value.str "8am"),
     ( "itinerary", Value.list ["d1"]),
     ( "inclusions", Value.list ["a"]),
     ( "exclusions", Value.list ["b"]),
     ( "image_url", Value.str "http://i")]
    [( "surprise", Value.str "x")]
    ⟨ "dest-1", "G", "T", "5d", 10, 12, "8am", ["d1"], ["a"], ["b"],
      "http://i"⟩ rfl
  obtain ⟨h1, obj, h2, h3, h4, h5⟩ := h
  exact ⟨h1, obj, h2, h3 _ (by decide), h5 _ (by decide) (by decide)⟩

/-- C3: store-then-read round-trips the creation instant.  Creating a
Booking stores its timestamp as the ISO-8601 string of the server
clock reading; listing bookings afterwards parses that string back, so
the read record's `booking_date` is the very instant `now` the record
was constructed with.  A stored record whose timestamp is already
structured passes through the read unchanged, and parsing inverts
serialization for every valid instant. -/
theorem c3_booking_date_roundtrip (s : DB) (l : List Document) (rnd : Nat)
    (now : DateTime) (payload : Document) (inp : BookingCreate)
    (hv : BookingCreate.validate payload = some inp) (hnow : now.Valid)
    (hok : get_bookings s = Except.ok l) (hlen : s.bookings.length < 1000) :
    (∃ d2 : Document,
      get_bookings (create_booking s rnd now payload).2 =
        Except.ok (l ++ [d2]) ∧
      d2.lookup "booking_date" = some (Value.dt now)) ∧
    (∀ (d : Document) (t : DateTime),
      d.lookup "booking_date" = some (Value.dt t) → readBooking d = some d) ∧
    fromisoformat (isoformat now) = some now := by
  have hparse : fromisoformat (isoformat now) = some now :=
    fromisoformat_isoformat hnow
  refine ⟨?_, ?_, hparse⟩
  · -- the record as `create_booking` constructs it, and its stored document
    have hbooks : (create_booking s rnd now payload).2.bookings =
        s.bookings ++ [( "_id", Value.int s.nextOid) ::
          setKey (Booking.model_dump
            ⟨uuid4String rnd, inp.trip_id, inp.trip_title, inp.customer_name,
             inp.customer_email, inp.customer_phone, inp.travel_date,
             inp.guests, inp.meal_preference, inp.total_amount, now,
             "confirmed"⟩) "booking_date" (Value.str (isoformat now))] := by
      simp [create_booking, hv, insertOne]
    set doc := setKey (Booking.model_dump
      ⟨uuid4String rnd, inp.trip_id, inp.trip_title, inp.customer_name,
       inp.customer_email, inp.customer_phone, inp.travel_date,
       inp.guests, inp.meal_preference, inp.total_amount, now,
       "confirmed"⟩) "booking_date" (Value.str (isoformat now)) with hdoc
    have hstripdoc : stripId doc = doc := by
      rw [hdoc]
      rfl
    have hlookdoc : doc.lookup "booking_date" =
        some (Value.str (isoformat now)) := by
      rw [hdoc]
      exact lookup_setKey_self _ _ _ (Value.dt now) rfl
    have hread : readBooking doc =
        some (setKey doc "booking_date" (Value.dt now)) := by
      simp only [readBooking, hlookdoc, hparse]
    have hfixone : fixBookings [doc] =
        some [setKey doc "booking_date" (Value.dt now)] := by
      rw [fixBookings, hread]
      rfl
    have hmaple : (s.bookings.map stripId).length ≤ 1000 := by
      rw [List.length_map]
      exact Nat.le_of_lt hlen
    have hfixold : fixBookings (s.bookings.map stripId) = some l := by
      unfold get_bookings at hok
      rw [findList_nil_query, List.take_of_length_le hmaple] at hok
      cases hf : fixBookings (s.bookings.map stripId) with
      | none =>
        rw [hf] at hok
        exact absurd hok (by simp)
      | some l2 =>
        rw [hf] at hok
        exact congrArg Option.some (by simpa using hok)
    have hfixnew : fixBookings (s.bookings.map stripId ++ [doc]) =
        some (l ++ [setKey doc "booking_date" (Value.dt now)]) :=
      fixBookings_append hfixold hfixone
    refine ⟨setKey doc "booking_date" (Value.dt now), ?_, ?_⟩
    · unfold get_bookings
      rw [hbooks, findList_nil_query, List.map_append, List.map_singleton]
      have hlen2 : ((s.bookings.map stripId) ++
          [stripId (( "_id", Value.int s.nextOid) :: doc)]).length ≤ 1000 := by
        rw [List.length_append, List.length_map]
        simp only [List.length_singleton]
        omega
      rw [List.take_of_length_le hlen2, stripId_cons_id, hstripdoc, hfixnew]
    · exact lookup_setKey_self _ _ _ _ hlookdoc
  · intro d t h
    rw [readBooking, h]

/-- C3 witness: the theorem applied on the empty store at a concrete
payload, uuid draw and a concrete valid clock reading. -/
theorem c3_booking_date_roundtrip_witness :
    BookingCreate.validate
      [( "trip_id", Value.str "trip-1"), ( "trip_title", Value.str "T"),
       ( "customer_name", Value.str "N"), ( "customer_email", Value.str "E"),
       ( "customer_phone", Value.str "P"), ( "travel_date", Value.str "D"),
       ( "guests", Value.int 2), ( "meal_preference", Value.str "veg"),
       ( "total_amount", Value.int 5)] =
      some ⟨ "trip-1", "T", "N", "E", "P", "D", 2, "veg", (5 : Int)⟩ ∧
    DateTime.Valid ⟨2026, 10, 12, 7, 5, 3, 123456⟩ ∧
    get_bookings (⟨[], [], [], 0⟩ : DB) = Except.ok [] ∧
    (∃ d2 : Document,
      get_bookings (create_booking ⟨[], [], [], 0⟩ 0
        ⟨2026, 10, 12, 7, 5, 3, 123456⟩
        [( "trip_id", Value.str "trip-1"), ( "trip_title", Value.str "T"),
         ( "customer_name", Value.str "N"), ( "customer_email", Value.str "E"),
         ( "customer_phone", Value.str "P"), ( "travel_date", Value.str "D"),
         ( "guests", Value.int 2), ( "meal_preference", Value.str "veg"),
         ( "total_amount", Value.int 5)]).2 =
        Except.ok ([] ++ [d2]) ∧
      d2.lookup "booking_date" =
        some (Value.dt ⟨2026, 10, 12, 7, 5, 3, 123456⟩)) :=
  ⟨rfl, by decide, rfl,
    (c3_booking_date_roundtrip ⟨[], [], [], 0⟩ [] 0
      ⟨2026, 10, 12, 7, 5, 3, 123456⟩
      [( "trip_id", Value.str "trip-1"), ( "trip_title", Value.str "T"),
       ( "customer_name", Value.str "N"), ( "customer_email", Value.str "E"),
       ( "customer_phone", Value.str "P"), ( "travel_date", Value.str "D"),
       ( "guests", Value.int 2), ( "meal_preference", Value.str "veg"),
       ( "total_amount", Value.int 5)]
      ⟨ "trip-1", "T", "N", "E", "P", "D", 2, "veg", (5 : Int)⟩
      rfl (by decide) rfl (by norm_num)).1⟩

end TravelApi
